import Mathlib

/-!
Verification development for the windlass artifact publisher
(`windlass/images.py` and `windlass/generic.py`).

The Python sources are shallowly embedded: strings are `String` or
`List Char`, optional arguments are `Option String` (with Python's
truthiness made explicit), network and container-engine effects are
turned into explicit inputs (HTTP status codes, glob results, search
results, docker status streams) and outputs (request records, operation
traces), and `raise` becomes `Except.error` over an error type that
records the Python exception class and message.
-/

namespace Windlass

/-- Python exceptions raised by the embedded code, keeping the exception
class and its message. `unboundLocal` models an `UnboundLocalError`
(a local variable referenced before assignment), `imageNotFound` models
the docker client error raised by `docker.images.get` on a missing
image. -/
inductive PyErr where
  | exception (msg : String)
  | retryableFailure (msg : String)
  | unboundLocal (varName : String)
  | imageNotFound (ref : String)
deriving DecidableEq, Repr

deriving instance DecidableEq for Except

/-- Python class name of an embedded exception. `RetryableFailure` is the
only class the windlass retry policy retries; everything else is fatal. -/
def PyErr.pyClass : PyErr → String
  | .exception _ => "Exception"
  | .retryableFailure _ => "RetryableFailure"
  | .unboundLocal _ => "UnboundLocalError"
  | .imageNotFound _ => "ImageNotFound"

/-- Python truthiness of an optional string argument: `None` and the
empty string are falsy. -/
def pyTruthy : Option String → Bool
  | none => false
  | some s => !s.isEmpty

/-- Python `a or b` for two optional strings (used for
`version or self.version`). -/
def pyOr (a b : Option String) : Option String :=
  if pyTruthy a then a else b

/-- Python `'%s' % x` for an optional string: `None` renders as "None". -/
def pyFmt : Option String → String
  | none => "None"
  | some s => s

/-- Python `str.isalnum`, which is Unicode-aware. The model is exact on
all code points below U+0100 (Basic Latin and Latin-1, checked against
CPython); code points at or above U+0100 are treated as not
alphanumeric. None of the theorems below depend on the predicate's
value at or above U+0100: the universally quantified properties of
`clean_tag` (length bound, truncation shape, idempotence) hold for any
per-character predicate, and all concrete evaluations stay below
U+0100. -/
def py_isalnum (c : Char) : Bool :=
  (48 ≤ c.toNat && c.toNat ≤ 57) ||        -- '0'..'9'
  (65 ≤ c.toNat && c.toNat ≤ 90) ||        -- 'A'..'Z'
  (97 ≤ c.toNat && c.toNat ≤ 122) ||       -- 'a'..'z'
  c.toNat == 0xAA || c.toNat == 0xB2 || c.toNat == 0xB3 || c.toNat == 0xB5 ||
  c.toNat == 0xB9 || c.toNat == 0xBA || c.toNat == 0xBC || c.toNat == 0xBD ||
  c.toNat == 0xBE ||
  (0xC0 ≤ c.toNat && c.toNat ≤ 0xFF && c.toNat != 0xD7 && c.toNat != 0xF7)

/-- Loop body of `images.py::clean_tag`: a character is kept if
`c.isalnum() or c in ['_', '-', '.']`, otherwise replaced by `'_'`. -/
def cleanChar (c : Char) : Char :=
  if py_isalnum c || (c == '_' || c == '-' || c == '.') then c else '_'

/-- `images.py::clean_tag`: builds `clean` by appending the mapped
characters one by one, then returns `clean[:128]`. -/
def clean_tag (tag : List Char) : List Char :=
  (tag.foldl (fun clean c => clean ++ [cleanChar c]) []).take 128

/-- Membership in the character class `[A-Za-z0-9_.-]` that the spec
claims for sanitized tags (ASCII only, by code point). -/
def asciiTagChar (c : Char) : Bool :=
  (48 ≤ c.toNat && c.toNat ≤ 57) ||
  (65 ≤ c.toNat && c.toNat ≤ 90) ||
  (97 ≤ c.toNat && c.toNat ≤ 122) ||
  c == '_' || c == '-' || c == '.'

/-- `str.replace('/', '_')` as used on branch names in
`build_image_from_local_repo` (replaces every occurrence). -/
def pyReplaceSlash (l : List Char) : List Char :=
  l.map (fun c => if c == '/' then '_' else c)

/-- Version-control state read by `build_image_from_local_repo` via
GitPython: whether HEAD is detached, the active branch name (meaningful
only when not detached), the commit hash of HEAD / the active branch
tip, and whether the working tree is dirty. -/
structure RepoState where
  head_is_detached : Bool
  active_branch_name : List Char
  hexsha : List Char
  is_dirty : Bool
deriving DecidableEq, Repr

/-- Tags applied by `images.py::build_image_from_local_repo` after a
successful build, in order: a branch tag only when HEAD is not
detached, then `last_ref_`/`ref_` depending on the dirty flag. Each
`image.tag(name, t)` call is recorded as the tag string `t`. -/
def build_image_tags (r : RepoState) : List (List Char) :=
  (if r.head_is_detached then []
   else [clean_tag ("branch_".toList ++ pyReplaceSlash r.active_branch_name)]) ++
  [if r.is_dirty then clean_tag ("last_ref_".toList ++ r.hexsha)
   else clean_tag ("ref_".toList ++ r.hexsha)]

/-- Scan of a character-class body up to the closing `]`, returning the
class content and the remaining pattern. `none` when there is no
closing `]` (the `[` is then treated as a literal). -/
def splitAtRBracket : List Char → Option (List Char × List Char)
  | [] => none
  | c :: t =>
    if c = ']' then some ([], t)
    else match splitAtRBracket t with
      | none => none
      | some (a, b) => some (c :: a, b)

/-- Class scan after the optional leading `!` has been removed,
mirroring `fnmatch.translate`: a `]` in first position belongs to the
class content. -/
def scanClassBody (l : List Char) : Option (List Char × List Char) :=
  match l with
  | ']' :: t =>
    (match splitAtRBracket t with
     | none => none
     | some (stuff, rest) => some (']' :: stuff, rest))
  | _ => splitAtRBracket l

/-- Scan of a character class starting just after `[`, mirroring
`fnmatch.translate`: an optional leading `!`, then an optional `]`
belonging to the content, then everything up to the closing `]`. -/
def scanClass (l : List Char) : Option (List Char × List Char) :=
  match l with
  | '!' :: l1 => (scanClassBody l1).map (fun p => ('!' :: p.1, p.2))
  | _ => scanClassBody l

/-- Matching of a character against the items of a class body, with
`x-y` ranges compared by code point as in the regular expression
`fnmatch.translate` produces (a `-` in first or last position is a
literal). -/
def itemsMatch : List Char → Char → Bool
  | [], _ => false
  | a :: '-' :: b :: rest, c =>
    (a.toNat ≤ c.toNat && c.toNat ≤ b.toNat) || itemsMatch rest c
  | a :: rest, c => (a == c) || itemsMatch rest c

/-- Matching of a character against a scanned class content: a leading
`!` negates the class. -/
def classMatch (stuff : List Char) (c : Char) : Bool :=
  match stuff with
  | '!' :: rest => !(itemsMatch rest c)
  | _ => itemsMatch stuff c

/-- Glob matching of a name against a pattern, as `fnmatch.fnmatch`
(with POSIX `os.path.normcase`, the identity): `*` matches any
sequence, `?` any single character, `[...]` a character class, an
unterminated `[` is a literal, everything else matches literally.
Degenerate reversed ranges (on which CPython's `re` raises) are
modelled as never matching. Recursion is by fuel so that the function
reduces by kernel computation; every recursive call strictly decreases
`p.length + s.length` (the class case consumes the scanned class
including its closing bracket), so the initial fuel `p.length +
s.length + 1` supplied by `fmatch` is never exhausted and the fuel-out
value `false` is never returned. -/
def fmatchFuel : Nat → List Char → List Char → Bool
  | 0, _, _ => false
  | fuel + 1, p, s =>
    match p with
    | [] => s.isEmpty
    | '*' :: pr =>
      fmatchFuel fuel pr s ||
        (match s with
         | [] => false
         | _ :: sr => fmatchFuel fuel ('*' :: pr) sr)
    | '?' :: pr =>
      (match s with
       | [] => false
       | _ :: sr => fmatchFuel fuel pr sr)
    | '[' :: pr =>
      (match scanClass pr with
       | some (stuff, rest) =>
         (match s with
          | [] => false
          | c :: sr => classMatch stuff c && fmatchFuel fuel rest sr)
       | none =>
         (match s with
          | [] => false
          | c :: sr => (c == '[') && fmatchFuel fuel pr sr))
    | c :: pr =>
      (match s with
       | [] => false
       | d :: sr => (c == d) && fmatchFuel fuel pr sr)

/-- Entry point of the glob matcher: pattern against string. -/
def fmatch (p s : List Char) : Bool := fmatchFuel (p.length + s.length + 1) p s

/-- `fnmatch.fnmatch(name, pattern)` on POSIX. -/
def fnmatch (nm pat : String) : Bool := fmatch pat.toList nm.toList

/-- Segment after the last `/` (`uri.split('/')[-1]`, and
`os.path.basename` for slash-separated paths). When there is no `/`
this is the whole string, matching `s[s.rfind('/') + 1:]` with
`rfind` returning `-1`. -/
def basenameL (l : List Char) : List Char :=
  (l.reverse.takeWhile (fun c => c != '/')).reverse

/-- String version of `basenameL`. -/
def basename (s : String) : String := String.mk (basenameL s.toList)

/-- `s.rstrip('/')`: removes all trailing slashes. -/
def pyRstripSlash (s : String) : String :=
  String.mk ((s.toList.reverse.dropWhile (fun c => c == '/')).reverse)

/-- `s[:s.rfind('/')]`: everything before the last `/`. When there is
no `/`, `rfind` returns `-1` and the Python slice `s[:-1]` drops the
last character. -/
def beforeLastSlashL (l : List Char) : List Char :=
  if l.contains '/' then
    (l.reverse.drop ((l.reverse.takeWhile (fun c => c != '/')).length + 1)).reverse
  else l.dropLast

/-- `s.startswith(p)` (via lists so that it reduces by kernel
computation). -/
def pyStartsWith (s p : String) : Bool := p.toList.isPrefixOf s.toList

/-- `generic.py::Generic.get_filename`: the configured glob pattern was
expanded to `globMatches`; exactly one match is returned, otherwise a
plain `Exception` is raised whose message distinguishes too many
matches from none. -/
def get_filename (pattern : String) (globMatches : List String) : Except PyErr String :=
  match globMatches with
  | [f] => .ok f
  | [] => .error (.exception ("Failed to found artifacts matching " ++ pattern))
  | fs => .error (.exception ("Found too many matching files:\n" ++ String.intercalate "\n" fs))

/-- HTTP GET performed against the Artifactory property-search API by
`Generic.url`, with its query parameters. -/
structure SearchQuery where
  url : String
  version : String
  repos : String
deriving DecidableEq, Repr

/-- Result of a call to `generic.py::Generic.url`: the property-search
query it performed (if any) and its returned URL or raised exception. -/
structure UrlCall where
  searchQuery : Option SearchQuery
  result : Except PyErr String
deriving DecidableEq, Repr

/-- `generic.py::Generic.url`. `pattern` is `self.data.get('filename')`;
`searchResults` is the list of `uri` values in the `results` field of
the property-search response (consulted only on the versioned branch);
`globMatches` is the local glob expansion (consulted only when no
`generic_url` is given). In the `generic_url`-without-`version` branch
the source evaluates `os.path.join(generic_url, artifact_name)` where
the local variable `artifact_name` is never assigned, raising
`UnboundLocalError`. -/
def Generic.url (pattern : String) (version generic_url : Option String)
    (searchResults globMatches : List String) : UrlCall :=
  if pyTruthy version && pyTruthy generic_url then
    let safe_url := pyRstripSlash (pyFmt generic_url)
    let repo := String.mk (basenameL safe_url.toList)
    let api := String.mk (beforeLastSlashL safe_url.toList) ++ "/api/search/prop"
    let q : SearchQuery := { url := api, version := pyFmt version, repos := repo }
    match searchResults.find? (fun u => fnmatch (basename u) pattern) with
    | some u => { searchQuery := some q, result := .ok u }
    | none =>
      { searchQuery := some q,
        result := .error (.exception ("Could not find artifact version " ++
          pyFmt version ++ " in " ++ repo)) }
  else if pyTruthy generic_url then
    { searchQuery := none, result := .error (.unboundLocal "artifact_name") }
  else
    { searchQuery := none, result := get_filename pattern globMatches }

/-- Result of a call to `generic.py::Generic.download`: the `Generic.url`
call it made, the artifact URL it fetched (if the GET was reached), the
local file it wrote, and the overall outcome. -/
structure DownloadCall where
  urlCall : UrlCall
  httpGet : Option String
  wroteFile : Option String
  result : Except PyErr Unit
deriving DecidableEq, Repr

/-- `generic.py::Generic.download` (undecorated method body). `status`
is the HTTP status code of the artifact GET, consulted only when the
GET is reached. -/
def Generic.download (pattern : String) (self_version version generic_url : Option String)
    (searchResults globMatches : List String) (status : Nat) : DownloadCall :=
  let u := Generic.url pattern (pyOr version self_version) generic_url searchResults globMatches
  match u.result with
  | .error e => { urlCall := u, httpGet := none, wroteFile := none, result := .error e }
  | .ok artifact_url =>
    if status ≠ 200 then
      { urlCall := u, httpGet := some artifact_url, wroteFile := none,
        result := .error (.retryableFailure ("Failed to download artifact " ++
          basename artifact_url)) }
    else
      { urlCall := u, httpGet := some artifact_url,
        wroteFile := some (basename artifact_url), result := .ok () }

/-- HTTP PUT performed by `Generic.upload`, with its basic-auth
credentials (`requests.auth.HTTPBasicAuth(docker_user,
docker_password)` is always constructed, possibly from `None`). -/
structure PutRequest where
  url : String
  basicAuthUser : Option String
  basicAuthPassword : Option String
deriving DecidableEq, Repr

/-- Result of a call to `generic.py::Generic.upload`: the PUT it issued
(if reached) and the overall outcome. -/
structure UploadCall where
  put : Option PutRequest
  result : Except PyErr Unit
deriving DecidableEq, Repr

/-- `generic.py::Generic.upload` (undecorated method body). `name` is
`self.name`, `pattern` the configured filename glob, `globMatches` its
local expansion, `status` the HTTP status code of the PUT response. -/
def Generic.upload (name pattern : String) (version generic_url : Option String)
    (docker_user docker_password : Option String)
    (globMatches : List String) (status : Nat) : UploadCall :=
  if !pyTruthy generic_url then
    { put := none,
      result := .error (.exception ("generic_url not specified. Unable to publish artifact " ++ name)) }
  else
    match get_filename pattern globMatches with
    | .error e => { put := none, result := .error e }
    | .ok local_filename =>
      let temp_path := if pyTruthy version && pyStartsWith (pyFmt version) "temp_" then "temp/" else ""
      let upload_url := pyFmt generic_url ++ "/" ++ temp_path ++ local_filename ++
        (if pyTruthy version then ";version=" ++ pyFmt version else "")
      let put : PutRequest :=
        { url := upload_url, basicAuthUser := docker_user, basicAuthPassword := docker_password }
      if status ≠ 201 then
        { put := some put,
          result := .error (.retryableFailure ("Failed (status: " ++ toString status ++
            ") to upload " ++ upload_url)) }
      else { put := some put, result := .ok () }

/-- Parsed docker status-stream line: the recognized keys `status`,
`id` (here `layerId`) and `error` (here `err`). -/
structure DockerLine where
  status : Option String
  layerId : Option String
  err : Option String
deriving DecidableEq, Repr

/-- Call made against the docker client, as recorded in operation
traces. `tag src repo t` is `client.api.tag(src, repo, t)` (the tag may
be Python `None`); `getImage r` is `docker.images.get(r)`; `push` and
`removeImage` carry their arguments. -/
inductive DockerOp where
  | pull (ref : String)
  | tag (src repo : String) (t : Option String)
  | getImage (ref : String)
  | push (repo tagName : String) (withAuth : Bool)
  | removeImage (ref : String)
deriving DecidableEq, Repr

/-- `images.py::check_docker_stream`: consumes the line-delimited status
stream (an empty/falsy line is `none`), logging `status` entries and
raising `RetryableFailure` at the first line carrying an `error`
entry. -/
def check_docker_stream (stream : List (Option DockerLine)) (name : String) :
    Except PyErr Unit :=
  match stream with
  | [] => .ok ()
  | none :: rest => check_docker_stream rest name
  | some d :: rest =>
    match d.err with
    | some e => .error (.retryableFailure (name ++ " ERROR from docker: " ++ e))
    | none => check_docker_stream rest name

/-- Line of the stream carrying an `error` entry. -/
def hasErrEntry : Option DockerLine → Bool
  | none => false
  | some l => l.err.isSome

/-- Exception class eligible for the windlass retry policy. -/
def PyErr.isRetryable : PyErr → Bool
  | .retryableFailure _ => true
  | _ => false

/-- Outcome is a raised `RetryableFailure`. -/
def isRetryableErr {α : Type} : Except PyErr α → Bool
  | .error e => e.isRetryable
  | .ok _ => false

/-- `images.py::push_image`: `docker.images.get(imagename + ':' +
push_tag)` raises (fatally) when the local image is missing
(`imageExists` is that engine fact); otherwise the push is issued and
its status stream checked. Returns the docker calls made and the
outcome. -/
def push_image (name imagename push_tag : String) (withAuth : Bool)
    (imageExists : Bool) (stream : List (Option DockerLine)) :
    List DockerOp × Except PyErr Bool :=
  if !imageExists then
    ([.getImage (imagename ++ ":" ++ push_tag)],
     .error (.imageNotFound (imagename ++ ":" ++ push_tag)))
  else
    match check_docker_stream stream name with
    | .error e =>
      ([.getImage (imagename ++ ":" ++ push_tag), .push imagename push_tag withAuth], .error e)
    | .ok _ =>
      ([.getImage (imagename ++ ":" ++ push_tag), .push imagename push_tag withAuth], .ok true)

/-- `images.py::Image.pull_image`: pulls the remote reference, checks
the status stream, then tags it locally and fetches the result. The
tag may be Python `None` when both versions are unset. -/
def pull_image (remoteimage imagename : String) (tagv : Option String)
    (stream : List (Option DockerLine)) : List DockerOp × Except PyErr Unit :=
  match check_docker_stream stream imagename with
  | .error e => ([.pull remoteimage], .error e)
  | .ok _ =>
    ([.pull remoteimage, .tag remoteimage imagename tagv,
      .getImage (imagename ++ ":" ++ pyFmt tagv)], .ok ())

/-- `images.py::Image.download` (undecorated method body). `stream` is
the docker pull status stream. -/
def Image.download (name : String) (self_version version docker_image_registry : Option String)
    (stream : List (Option DockerLine)) : List DockerOp × Except PyErr Unit :=
  if version = none ∧ self_version = none then
    ([], .error (.exception "Must specify version of image to download."))
  else if docker_image_registry = none then
    ([], .error (.exception
      "docker_image_registry not set for image download. Where should we download from?"))
  else
    let tagv := pyOr version self_version
    let remoteimage := pyFmt docker_image_registry ++ "/" ++ name ++ ":" ++ pyFmt tagv
    match pull_image remoteimage name tagv stream with
    | (ops, .error e) => (ops, .error e)
    | (ops, .ok _) =>
      if tagv = self_version then (ops, .ok ())
      else (ops ++ [.tag remoteimage name self_version], .ok ())

/-- `images.py::Image.upload` (undecorated method body). The `try`
block tags the local image under the registry name and pushes it; the
`finally` block removes the registry-qualified tag on every exit path.
A `None` upload tag would raise `TypeError` inside `push_image`'s
string concatenation; it is rendered as "None" here, which does not
affect the trace shape the claims are about. -/
def Image.upload (name : String) (self_version version docker_image_registry docker_user : Option String)
    (imageExists : Bool) (pushStream : List (Option DockerLine)) :
    List DockerOp × Except PyErr Unit :=
  if docker_image_registry = none then
    ([], .error (.exception "docker_image_registry not set for image upload. Unable to publish"))
  else
    let withAuth := pyTruthy docker_user
    let local_fullname := name ++ ":" ++ pyFmt self_version
    let upload_tag := pyOr version self_version
    let upload_name := pyRstripSlash (pyFmt docker_image_registry) ++ "/" ++ name
    let fullname := upload_name ++ ":" ++ pyFmt upload_tag
    let tagOps := if pyTruthy docker_image_registry then
        [DockerOp.tag local_fullname upload_name upload_tag] else []
    let pushed := push_image name upload_name (pyFmt upload_tag) withAuth imageExists pushStream
    let removeOps := if pyTruthy docker_image_registry then [DockerOp.removeImage fullname] else []
    (tagOps ++ pushed.1 ++ removeOps,
     match pushed.2 with
     | .error e => .error e
     | .ok _ => .ok ())

/-! ### Supporting lemmas -/

lemma foldl_append_eq_map (l acc : List Char) :
    l.foldl (fun clean c => clean ++ [cleanChar c]) acc = acc ++ l.map cleanChar := by
  induction l generalizing acc with
  | nil => simp
  | cons c t ih => simp [List.foldl_cons, ih]

lemma clean_tag_eq_map_take (t : List Char) :
    clean_tag t = (t.map cleanChar).take 128 := by
  simp [clean_tag, foldl_append_eq_map]

lemma cleanChar_valid (c : Char) :
    (py_isalnum (cleanChar c) || (cleanChar c == '_' || cleanChar c == '-' ||
      cleanChar c == '.')) = true := by
  by_cases h : (py_isalnum c || (c == '_' || c == '-' || c == '.')) = true
  · rw [cleanChar, if_pos h]; exact h
  · simp [cleanChar, h]

lemma cleanChar_idem (c : Char) : cleanChar (cleanChar c) = cleanChar c := by
  by_cases h : (py_isalnum c || (c == '_' || c == '-' || c == '.')) = true
  · simp [cleanChar, h]
  · simp [cleanChar, h]

lemma cleanChar_eq_self_of_ascii (c : Char) (h : asciiTagChar c = true) :
    cleanChar c = c := by
  simp only [asciiTagChar, Bool.or_eq_true, Bool.and_eq_true, decide_eq_true_eq,
    beq_iff_eq] at h
  have : (py_isalnum c || (c == '_' || c == '-' || c == '.')) = true := by
    rcases h with ((⟨h1, h2⟩ | ⟨h1, h2⟩) | ⟨h1, h2⟩) | rfl | rfl | rfl
    · have hh : py_isalnum c = true := by
        simp only [py_isalnum, Bool.or_eq_true, Bool.and_eq_true, decide_eq_true_eq,
          beq_iff_eq, bne_iff_ne]
        omega
      simp [hh]
    · have hh : py_isalnum c = true := by
        simp only [py_isalnum, Bool.or_eq_true, Bool.and_eq_true, decide_eq_true_eq,
          beq_iff_eq, bne_iff_ne]
        omega
      simp [hh]
    · have hh : py_isalnum c = true := by
        simp only [py_isalnum, Bool.or_eq_true, Bool.and_eq_true, decide_eq_true_eq,
          beq_iff_eq, bne_iff_ne]
        omega
      simp [hh]
    · decide
    · decide
    · decide
  simp [cleanChar, this]

lemma take_of_take (t : List Char) (m n : Nat) (h : m ≤ n) :
    (t.take n).take m = t.take m := by
  rw [List.take_take, min_eq_left h]

lemma clean_tag_front (p x : List Char) (hp : p.length ≤ 128)
    (hfix : p.map cleanChar = p) : (clean_tag (p ++ x)).take p.length = p := by
  rw [clean_tag_eq_map_take, List.map_append, hfix, take_of_take _ _ _ hp,
    List.take_append_eq_append_take]
  simp

lemma branch_front (x : List Char) :
    (clean_tag ("branch_".toList ++ x)).take 7 = "branch_".toList := by
  have h := clean_tag_front "branch_".toList x (by decide) (by decide)
  exact h

lemma lastref_front (x : List Char) :
    (clean_tag ("last_ref_".toList ++ x)).take 9 = "last_ref_".toList := by
  have h := clean_tag_front "last_ref_".toList x (by decide) (by decide)
  exact h

lemma ref_front (x : List Char) :
    (clean_tag ("ref_".toList ++ x)).take 4 = "ref_".toList := by
  have h := clean_tag_front "ref_".toList x (by decide) (by decide)
  exact h

lemma branch_not_lastref (x : List Char) :
    (clean_tag ("branch_".toList ++ x)).take 9 ≠ "last_ref_".toList := by
  intro h
  have h2 := congrArg (List.take 7) h
  rw [take_of_take _ 7 9 (by omega), branch_front] at h2
  exact absurd h2 (by decide)

lemma lastref_not_branch (x : List Char) :
    (clean_tag ("last_ref_".toList ++ x)).take 7 ≠ "branch_".toList := by
  intro h
  have h2 := congrArg (List.take 7) (lastref_front x)
  rw [take_of_take _ 7 9 (by omega), h] at h2
  exact absurd h2 (by decide)

lemma ref_not_branch (x : List Char) :
    (clean_tag ("ref_".toList ++ x)).take 7 ≠ "branch_".toList := by
  intro h
  have h2 := congrArg (List.take 4) h
  rw [take_of_take _ 4 7 (by omega), ref_front] at h2
  exact absurd h2 (by decide)

lemma ref_not_lastref (x : List Char) :
    (clean_tag ("ref_".toList ++ x)).take 9 ≠ "last_ref_".toList := by
  intro h
  have h2 := congrArg (List.take 4) h
  rw [take_of_take _ 4 9 (by omega), ref_front] at h2
  exact absurd h2 (by decide)

lemma pyTruthy_some (s : String) (h : s ≠ "") : pyTruthy (some s) = true := by
  cases hh : s.isEmpty with
  | false => simp [pyTruthy, hh]
  | true => exact absurd ((String.isEmpty_iff s).mp hh) h

lemma pyOr_some (v : String) (b : Option String) (h : v ≠ "") :
    pyOr (some v) b = some v := by
  simp [pyOr, pyTruthy_some v h]

lemma find?_first {p : String → Bool} (pre : List String) (u : String)
    (post : List String) (h1 : ∀ x ∈ pre, p x = false) (hu : p u = true) :
    (pre ++ u :: post).find? p = some u := by
  induction pre with
  | nil => simp [List.find?_cons, hu]
  | cons a t ih =>
    have ha := h1 a (by simp)
    simp only [List.cons_append, List.find?_cons, ha]
    exact ih (fun x hx => h1 x (by simp [hx]))

lemma find?_none {p : String → Bool} (l : List String)
    (h : ∀ x ∈ l, p x = false) : l.find? p = none := by
  rw [List.find?_eq_none]
  intro x hx
  simp [h x hx]

lemma getLast?_cons_concat {α : Type} (a x : α) (l : List α) :
    (a :: (l ++ [x])).getLast? = some x := by
  rw [← List.cons_append]
  exact List.getLast?_concat _

lemma check_ok_iff (stream : List (Option DockerLine)) (name : String) :
    check_docker_stream stream name = .ok () ↔ stream.any hasErrEntry = false := by
  induction stream with
  | nil => simp [check_docker_stream]
  | cons hd t ih =>
    cases hd with
    | none => simpa [check_docker_stream, hasErrEntry] using ih
    | some d =>
      cases hd2 : d.err with
      | none => simpa [check_docker_stream, hasErrEntry, hd2] using ih
      | some e => simp [check_docker_stream, hasErrEntry, hd2]

lemma check_retryable (stream : List (Option DockerLine)) (name : String)
    (h : stream.any hasErrEntry = true) :
    isRetryableErr (check_docker_stream stream name) = true := by
  induction stream with
  | nil => simp [hasErrEntry] at h
  | cons hd t ih =>
    cases hd with
    | none =>
      simp only [List.any_cons, hasErrEntry, Bool.false_or] at h
      exact ih h
    | some d =>
      cases hd2 : d.err with
      | none =>
        simp only [List.any_cons, hasErrEntry, hd2, Option.isSome_none, Bool.false_or] at h
        simpa [check_docker_stream, hd2] using ih h
      | some e => simp [check_docker_stream, hd2, isRetryableErr, PyErr.isRetryable]

/-! ### Claim theorems -/

/-- C1, counterexample: the sanitized tag is claimed to contain only
characters from `[A-Za-z0-9_.-]`, but `clean_tag` keeps every character
for which Python's Unicode-aware `str.isalnum` is true: `é` (U+00E9)
passes through unchanged and is not in the claimed ASCII class. -/
theorem C1_counterexample :
    clean_tag ['é'] = ['é'] ∧ asciiTagChar 'é' = false := by
  exact ⟨by decide, by decide⟩

/-- C1, amended: for every input string, every character of the
sanitized tag is Python-alphanumeric (Unicode-aware) or one of
`_`, `-`, `.` (every other character is replaced by `_`), the length is
at most 128, and the result equals the first 128 characters of the
per-character-mapped input. -/
theorem C1_clean_tag_sanitization (s : List Char) :
    (∀ c ∈ clean_tag s,
      (py_isalnum c || (c == '_' || c == '-' || c == '.')) = true) ∧
    (clean_tag s).length ≤ 128 ∧
    clean_tag s = (s.map cleanChar).take 128 := by
  refine ⟨?_, ?_, clean_tag_eq_map_take s⟩
  · intro c hc
    rw [clean_tag_eq_map_take] at hc
    have hc2 := List.take_subset 128 _ hc
    obtain ⟨a, _, rfl⟩ := List.mem_map.mp hc2
    exact cleanChar_valid a
  · rw [clean_tag_eq_map_take]
    simp only [List.length_take]
    omega

/-- C1, witness: the amended theorem applied at the concrete input
"a!b" (whose mapped form is "a_b"). -/
theorem C1_clean_tag_sanitization_witness :
    (py_isalnum 'a' || ('a' == '_' || 'a' == '-' || 'a' == '.')) = true ∧
    (clean_tag "a!b".toList).length ≤ 128 ∧
    clean_tag "a!b".toList = ("a!b".toList.map cleanChar).take 128 :=
  ⟨(C1_clean_tag_sanitization "a!b".toList).1 'a' (by decide),
   (C1_clean_tag_sanitization "a!b".toList).2.1,
   (C1_clean_tag_sanitization "a!b".toList).2.2⟩

/-- C10: tag sanitization is idempotent, and every string composed only
of `[A-Za-z0-9_.-]` of length at most 128 is a fixed point of the
sanitizer. -/
theorem C10_clean_tag_idempotent (s : List Char) :
    clean_tag (clean_tag s) = clean_tag s ∧
    ((∀ c ∈ s, asciiTagChar c = true) → s.length ≤ 128 → clean_tag s = s) := by
  constructor
  · rw [clean_tag_eq_map_take (clean_tag s), clean_tag_eq_map_take s]
    have hmm : ((s.map cleanChar).map cleanChar) = s.map cleanChar := by
      rw [List.map_map]
      simp [Function.comp, cleanChar_idem]
    rw [List.map_take, hmm, take_of_take _ 128 128 le_rfl]
  · intro hall hlen
    rw [clean_tag_eq_map_take]
    have hmap : s.map cleanChar = s := by
      induction s with
      | nil => simp
      | cons a t ih =>
        have ha := cleanChar_eq_self_of_ascii a (hall a (by simp))
        simp only [List.map_cons, ha, List.cons.injEq, true_and]
        exact ih (fun c hc => hall c (by simp [hc])) (by simp at hlen; omega)
    rw [hmap, List.take_of_length_le hlen]

/-- C10, witness: the theorem applied at "ref_abc", an ASCII tag of
length at most 128, hence a fixed point. -/
theorem C10_clean_tag_idempotent_witness :
    clean_tag (clean_tag "ref_abc".toList) = clean_tag "ref_abc".toList ∧
    clean_tag "ref_abc".toList = "ref_abc".toList :=
  ⟨(C10_clean_tag_idempotent "ref_abc".toList).1,
   (C10_clean_tag_idempotent "ref_abc".toList).2 (by decide) (by decide)⟩

set_option maxRecDepth 8000 in
/-- C2, counterexample: for a 128-character branch name on a clean,
non-detached working copy, the applied branch tag is the sanitization
of the whole string `'branch_' + name` (capped at 128 characters), not
`'branch_'` followed by the sanitized branch name (135 characters), so
the claimed tag is not among the applied tags. -/
theorem C2_counterexample :
    ("branch_".toList ++ clean_tag (pyReplaceSlash (List.replicate 128 'a'))) ∉
      build_image_tags
        { head_is_detached := false, active_branch_name := List.replicate 128 'a',
          hexsha := "abc".toList, is_dirty := false } := by
  decide

/-- C2, amended: a tag starting with `branch_` is applied exactly when
HEAD is not detached, and it is the sanitization of `'branch_' +`
the branch name with slashes replaced by underscores (so for branch
names of at most 121 characters it is `branch_` followed by the
sanitized name); a tag starting with `last_ref_` is applied exactly
when the working tree is dirty, namely the sanitization of
`'last_ref_' + commit`; otherwise the sanitization of `'ref_' +
commit` is applied. -/
theorem C2_tag_derivation (r : RepoState) :
    ((build_image_tags r).any (fun t => t.take 7 == "branch_".toList) =
      !r.head_is_detached) ∧
    (r.head_is_detached = false →
      clean_tag ("branch_".toList ++ pyReplaceSlash r.active_branch_name) ∈
        build_image_tags r) ∧
    ((build_image_tags r).any (fun t => t.take 9 == "last_ref_".toList) =
      r.is_dirty) ∧
    (r.is_dirty = true →
      clean_tag ("last_ref_".toList ++ r.hexsha) ∈ build_image_tags r) ∧
    (r.is_dirty = false →
      clean_tag ("ref_".toList ++ r.hexsha) ∈ build_image_tags r) := by
  obtain ⟨d, bn, hx, dy⟩ := r
  cases d <;> cases dy <;> simp [build_image_tags]
  · exact ⟨Or.inl (branch_front _), branch_not_lastref _, ref_not_lastref _⟩
  · exact ⟨Or.inl (branch_front _), Or.inr (lastref_front _)⟩
  · exact ⟨ref_not_branch _, ref_not_lastref _⟩
  · exact ⟨lastref_not_branch _, lastref_front _⟩

/-- C2, witness: the amended theorem applied to a clean working copy on
branch `feature/foo` at commit `abcdef1234`, the spec's own scenario:
both `branch_feature_foo` and `ref_abcdef1234` are applied. -/
theorem C2_tag_derivation_witness :
    clean_tag ("branch_".toList ++ pyReplaceSlash "feature/foo".toList) ∈
      build_image_tags
        { head_is_detached := false, active_branch_name := "feature/foo".toList,
          hexsha := "abcdef1234".toList, is_dirty := false } ∧
    clean_tag ("ref_".toList ++ "abcdef1234".toList) ∈
      build_image_tags
        { head_is_detached := false, active_branch_name := "feature/foo".toList,
          hexsha := "abcdef1234".toList, is_dirty := false } :=
  ⟨(C2_tag_derivation
      { head_is_detached := false, active_branch_name := "feature/foo".toList,
        hexsha := "abcdef1234".toList, is_dirty := false }).2.1 rfl,
   (C2_tag_derivation
      { head_is_detached := false, active_branch_name := "feature/foo".toList,
        hexsha := "abcdef1234".toList, is_dirty := false }).2.2.2.2 rfl⟩

/-- C3, code-bug evaluation: with an endpoint given but no version (and
no artifact version set), `Generic.url` reaches
`os.path.join(generic_url, artifact_name)` with the local
`artifact_name` unassigned and raises `UnboundLocalError`, so
`Generic.download` performs no HTTP GET and writes no file, instead of
resolving a direct URL from the endpoint as the spec describes. -/
theorem C3_download_unbound_local :
    Generic.url "out.bin" none (some "https://repo/x") [] [] =
      { searchQuery := none, result := .error (.unboundLocal "artifact_name") } ∧
    Generic.download "out.bin" none none (some "https://repo/x") [] [] 200 =
      { urlCall := { searchQuery := none,
                     result := .error (.unboundLocal "artifact_name") },
        httpGet := none, wroteFile := none,
        result := .error (.unboundLocal "artifact_name") } :=
  ⟨rfl, rfl⟩

/-- C4: with an endpoint configured and the glob resolving to a single
file, the destination URL is the endpoint, then `/`, then `temp/`
exactly when the version starts with `temp_`, then the resolved
filename, then `;version=<v>` exactly when a (truthy) version is given;
the request is a PUT carrying basic auth built from the docker
credentials; a non-201 response raises `RetryableFailure` and a 201
response succeeds; with no endpoint configured the call fails with a
plain (non-retryable) `Exception` before any PUT. -/
theorem C4_generic_upload (name pattern : String) (version : Option String)
    (e f : String) (du dp : Option String) (status : Nat) (he : e ≠ "") :
    (∀ v : String, version = some v → v ≠ "" →
      (Generic.upload name pattern version (some e) du dp [f] status).put =
        some { url := e ++ "/" ++ (if pyStartsWith v "temp_" then "temp/" else "") ++
                 f ++ (";version=" ++ v),
               basicAuthUser := du, basicAuthPassword := dp }) ∧
    (version = none →
      (Generic.upload name pattern version (some e) du dp [f] status).put =
        some { url := e ++ "/" ++ "" ++ f ++ "",
               basicAuthUser := du, basicAuthPassword := dp }) ∧
    (status ≠ 201 →
      isRetryableErr (Generic.upload name pattern version (some e) du dp [f] status).result =
        true) ∧
    (status = 201 →
      (Generic.upload name pattern version (some e) du dp [f] status).result = .ok ()) ∧
    (∀ st : Nat,
      (Generic.upload name pattern version none du dp [f] st).put = none ∧
      (Generic.upload name pattern version none du dp [f] st).result =
        .error (.exception ("generic_url not specified. Unable to publish artifact " ++
          name))) := by
  have he2 : e.isEmpty = false := by
    cases hh : e.isEmpty with
    | false => rfl
    | true => exact absurd ((String.isEmpty_iff e).mp hh) he
  refine ⟨?_, ?_, ?_, ?_, ?_⟩
  · rintro v rfl hv
    have hv2 : v.isEmpty = false := by
      cases hh : v.isEmpty with
      | false => rfl
      | true => exact absurd ((String.isEmpty_iff v).mp hh) hv
    by_cases hs : status = 201 <;>
      by_cases ht : pyStartsWith v "temp_" = true <;>
      simp [Generic.upload, get_filename, pyTruthy, pyFmt, he2, hv2, ht, hs]
  · rintro rfl
    by_cases hs : status = 201 <;>
      simp [Generic.upload, get_filename, pyTruthy, pyFmt, he2, hs]
  · intro hs
    simp [Generic.upload, get_filename, pyTruthy, he2, hs, isRetryableErr,
      PyErr.isRetryable]
  · intro hs
    simp [Generic.upload, get_filename, pyTruthy, he2, hs]
  · intro st
    simp [Generic.upload, pyTruthy]

/-- C4, witness: the spec's own scenario — filename `out.bin`, endpoint
`https://repo/x`, version `1.2.3` — PUTs to
`https://repo/x/out.bin;version=1.2.3` and succeeds on 201. -/
theorem C4_generic_upload_witness :
    (Generic.upload "art" "out.bin" (some "1.2.3") (some "https://repo/x")
        none none ["out.bin"] 201).put =
      some { url := "https://repo/x" ++ "/" ++
               (if pyStartsWith "1.2.3" "temp_" then "temp/" else "") ++
               "out.bin" ++ (";version=" ++ "1.2.3"),
             basicAuthUser := none, basicAuthPassword := none } ∧
    (Generic.upload "art" "out.bin" (some "1.2.3") (some "https://repo/x")
        none none ["out.bin"] 201).put =
      some { url := "https://repo/x/out.bin;version=1.2.3",
             basicAuthUser := none, basicAuthPassword := none } ∧
    (Generic.upload "art" "out.bin" (some "1.2.3") (some "https://repo/x")
        none none ["out.bin"] 201).result = .ok () :=
  ⟨(C4_generic_upload "art" "out.bin" (some "1.2.3") "https://repo/x" "out.bin"
      none none 201 (by decide)).1 "1.2.3" rfl (by decide),
   by decide,
   (C4_generic_upload "art" "out.bin" (some "1.2.3") "https://repo/x" "out.bin"
      none none 201 (by decide)).2.2.2.1 rfl⟩

/-- C7, counterexample: with several (or zero) glob matches the code
raises a plain builtin `Exception` whose message distinguishes the two
situations; it does not raise exceptions of distinct classes
`AmbiguousArtifactError` / `MissingArtifactError`. -/
theorem C7_counterexample :
    get_filename "artifact-*.tar" ["artifact-1.tar", "artifact-2.tar"] =
      .error (.exception "Found too many matching files:\nartifact-1.tar\nartifact-2.tar") ∧
    (PyErr.exception "Found too many matching files:\nartifact-1.tar\nartifact-2.tar").pyClass ≠
      "AmbiguousArtifactError" ∧
    get_filename "artifact-*.tar" [] =
      .error (.exception "Failed to found artifacts matching artifact-*.tar") ∧
    (PyErr.exception "Failed to found artifacts matching artifact-*.tar").pyClass ≠
      "MissingArtifactError" :=
  ⟨rfl, by decide, rfl, by decide⟩

/-- C7, amended: local file resolution succeeds and returns the single
match exactly when the glob matches exactly one file; with two or more
matches it fails with a plain `Exception` listing the matches ("Found
too many matching files"), and with zero matches it fails with a plain
`Exception` naming the pattern ("Failed to found artifacts
matching"). -/
theorem C7_get_filename (pattern : String) (ms : List String) :
    (∀ f, get_filename pattern ms = .ok f ↔ ms = [f]) ∧
    (2 ≤ ms.length →
      get_filename pattern ms =
        .error (.exception ("Found too many matching files:\n" ++
          String.intercalate "\n" ms))) ∧
    (ms = [] →
      get_filename pattern ms =
        .error (.exception ("Failed to found artifacts matching " ++ pattern))) := by
  rcases ms with _ | ⟨a, _ | ⟨b, t⟩⟩ <;>
    refine ⟨?_, ?_, ?_⟩ <;> simp [get_filename]

/-- C7, witness: the amended theorem applied with a single match and
with two matches. -/
theorem C7_get_filename_witness :
    get_filename "artifact-*.tar" ["artifact-1.tar"] = .ok "artifact-1.tar" ∧
    get_filename "x" ["a", "b"] =
      .error (.exception ("Found too many matching files:\n" ++
        String.intercalate "\n" ["a", "b"])) :=
  ⟨((C7_get_filename "artifact-*.tar" ["artifact-1.tar"]).1 "artifact-1.tar").mpr rfl,
   (C7_get_filename "x" ["a", "b"]).2.1 (by decide)⟩

/-- C8: with both a version and an endpoint, the property-search API
derived from the endpoint (everything before the last path segment plus
`/api/search/prop`) is queried with that version and the endpoint's
last path segment as repository; the first result whose URI basename
matches the filename glob is fetched with a GET; a non-200 response
raises `RetryableFailure`; and when no result matches, the call fails
with a plain `Exception` and no GET is attempted. -/
theorem C8_versioned_download (pattern : String) (sv : Option String) (v e : String)
    (uris globMatches : List String) (status : Nat) (hv : v ≠ "") (he : e ≠ "") :
    ((Generic.download pattern sv (some v) (some e) uris globMatches status).urlCall.searchQuery =
      some { url := String.mk (beforeLastSlashL (pyRstripSlash e).toList) ++ "/api/search/prop",
             version := v, repos := String.mk (basenameL (pyRstripSlash e).toList) }) ∧
    (∀ pre u post, uris = pre ++ u :: post →
      (∀ x ∈ pre, fnmatch (basename x) pattern = false) →
      fnmatch (basename u) pattern = true →
      (Generic.download pattern sv (some v) (some e) uris globMatches status).httpGet = some u ∧
      (status ≠ 200 →
        (Generic.download pattern sv (some v) (some e) uris globMatches status).result =
          .error (.retryableFailure ("Failed to download artifact " ++ basename u))) ∧
      (status = 200 →
        (Generic.download pattern sv (some v) (some e) uris globMatches status).result = .ok () ∧
        (Generic.download pattern sv (some v) (some e) uris globMatches status).wroteFile =
          some (basename u))) ∧
    ((∀ x ∈ uris, fnmatch (basename x) pattern = false) →
      (Generic.download pattern sv (some v) (some e) uris globMatches status).httpGet = none ∧
      (Generic.download pattern sv (some v) (some e) uris globMatches status).result =
        .error (.exception ("Could not find artifact version " ++ v ++ " in " ++
          String.mk (basenameL (pyRstripSlash e).toList)))) := by
  have hvv := pyTruthy_some v hv
  have hee := pyTruthy_some e he
  have hor : pyOr (some v) sv = some v := pyOr_some v sv hv
  refine ⟨?_, ?_, ?_⟩
  · cases hfind : uris.find? (fun u => fnmatch (basename u) pattern) with
    | some u =>
      by_cases hst : status = 200 <;>
        simp [Generic.download, hor, Generic.url, hvv, hee, pyFmt, hfind, hst]
    | none => simp [Generic.download, hor, Generic.url, hvv, hee, pyFmt, hfind]
  · rintro pre u post rfl hpre hu
    have hfind := find?_first pre u post hpre hu
    refine ⟨?_, ?_, ?_⟩
    · by_cases hst : status = 200 <;>
        simp [Generic.download, hor, Generic.url, hvv, hee, pyFmt, hfind, hst]
    · intro hst
      simp [Generic.download, hor, Generic.url, hvv, hee, pyFmt, hfind, hst]
    · intro hst
      simp [Generic.download, hor, Generic.url, hvv, hee, pyFmt, hfind, hst]
  · intro hall
    have hfind := find?_none uris hall
    simp [Generic.download, hor, Generic.url, hvv, hee, pyFmt, hfind]

/-- C8, witness: version `1.2.3` against endpoint `https://repo/x`
queries `https://repo/api/search/prop` for repository `x`; of the two
results only `artifact-1.tar` matches `artifact-*.tar`, it is fetched
and written. -/
theorem C8_versioned_download_witness :
    (Generic.download "artifact-*.tar" none (some "1.2.3") (some "https://repo/x")
        ["https://repo/x/notes.txt", "https://repo/x/artifact-1.tar"] [] 200).urlCall.searchQuery =
      some { url := String.mk (beforeLastSlashL (pyRstripSlash "https://repo/x").toList) ++
               "/api/search/prop",
             version := "1.2.3", repos := String.mk (basenameL (pyRstripSlash "https://repo/x").toList) } ∧
    (Generic.download "artifact-*.tar" none (some "1.2.3") (some "https://repo/x")
        ["https://repo/x/notes.txt", "https://repo/x/artifact-1.tar"] [] 200).httpGet =
      some "https://repo/x/artifact-1.tar" ∧
    (Generic.download "artifact-*.tar" none (some "1.2.3") (some "https://repo/x")
        ["https://repo/x/notes.txt", "https://repo/x/artifact-1.tar"] [] 200).result = .ok () :=
  ⟨(C8_versioned_download "artifact-*.tar" none "1.2.3" "https://repo/x"
      ["https://repo/x/notes.txt", "https://repo/x/artifact-1.tar"] [] 200
      (by decide) (by decide)).1,
   ((C8_versioned_download "artifact-*.tar" none "1.2.3" "https://repo/x"
      ["https://repo/x/notes.txt", "https://repo/x/artifact-1.tar"] [] 200
      (by decide) (by decide)).2.1 ["https://repo/x/notes.txt"]
      "https://repo/x/artifact-1.tar" [] rfl (by decide) (by decide)).1,
   (((C8_versioned_download "artifact-*.tar" none "1.2.3" "https://repo/x"
      ["https://repo/x/notes.txt", "https://repo/x/artifact-1.tar"] [] 200
      (by decide) (by decide)).2.1 ["https://repo/x/notes.txt"]
      "https://repo/x/artifact-1.tar" [] rfl (by decide) (by decide)).2.2 rfl).1⟩

/-- C5: image download fails fatally (with a plain, non-retryable
`Exception`) when no version is available (neither the argument nor the
artifact's own) or when no registry is given; otherwise it pulls
`registry/name:tag`, tags it locally under the artifact name, and
additionally re-tags it under the artifact's own version exactly when
the requested tag differs from it. -/
theorem C5_image_download (name : String) (sv v reg : Option String)
    (stream : List (Option DockerLine)) :
    (v = none ∧ sv = none →
      Image.download name sv v reg stream =
        ([], .error (.exception "Must specify version of image to download.")) ∧
      (PyErr.exception "Must specify version of image to download.").pyClass ≠
        "RetryableFailure") ∧
    (¬(v = none ∧ sv = none) → reg = none →
      Image.download name sv v reg stream =
        ([], .error (.exception
          "docker_image_registry not set for image download. Where should we download from?")) ∧
      (PyErr.exception
        "docker_image_registry not set for image download. Where should we download from?").pyClass ≠
        "RetryableFailure") ∧
    (∀ r : String, reg = some r → ¬(v = none ∧ sv = none) →
      stream.any hasErrEntry = false →
      Image.download name sv v reg stream =
        ([.pull (r ++ "/" ++ name ++ ":" ++ pyFmt (pyOr v sv)),
          .tag (r ++ "/" ++ name ++ ":" ++ pyFmt (pyOr v sv)) name (pyOr v sv),
          .getImage (name ++ ":" ++ pyFmt (pyOr v sv))] ++
          (if pyOr v sv = sv then []
           else [.tag (r ++ "/" ++ name ++ ":" ++ pyFmt (pyOr v sv)) name sv]),
         .ok ())) := by
  refine ⟨?_, ?_, ?_⟩
  · rintro ⟨rfl, rfl⟩
    exact ⟨by simp [Image.download], by decide⟩
  · intro h1 h2
    subst h2
    exact ⟨by simp [Image.download, h1], by decide⟩
  · rintro r rfl h1 hstr
    have hok : check_docker_stream stream name = .ok () := (check_ok_iff stream name).mpr hstr
    by_cases hts : pyOr v sv = sv <;>
      simp [Image.download, h1, pull_image, hok, pyFmt, hts]

/-- C5, witness: requesting tag `v1` of image `img` (own version `dev`)
from registry `reg:5000` pulls `reg:5000/img:v1` and re-tags it as
`img:dev` since the requested tag differs from the artifact's own
version. -/
theorem C5_image_download_witness :
    Image.download "img" (some "dev") (some "v1") (some "reg:5000") [] =
      ([.pull "reg:5000/img:v1", .tag "reg:5000/img:v1" "img" (some "v1"),
        .getImage "img:v1", .tag "reg:5000/img:v1" "img" (some "dev")], .ok ()) := by
  have h := (C5_image_download "img" (some "dev") (some "v1") (some "reg:5000") []).2.2
    "reg:5000" rfl (by simp) rfl
  exact h.trans (by decide)

/-- C6: image upload with no registry fails fatally before tagging or
pushing anything; with a (truthy) registry configured, the
registry-qualified tag `registry/name:tag` is removed as the very last
docker operation on every exit path — when the push succeeds, when the
status stream reports an error, and when the local image is missing. -/
theorem C6_image_upload_cleanup (name : String) (sv v du : Option String)
    (imageExists : Bool) (stream : List (Option DockerLine)) :
    (∀ reg : Option String, reg = none →
      Image.upload name sv v reg du imageExists stream =
        ([], .error (.exception
          "docker_image_registry not set for image upload. Unable to publish"))) ∧
    (∀ r : String, r ≠ "" →
      (Image.upload name sv v (some r) du imageExists stream).1.getLast? =
        some (.removeImage (pyRstripSlash r ++ "/" ++ name ++ ":" ++ pyFmt (pyOr v sv))) ∧
      (stream.any hasErrEntry = false → imageExists = true →
        (Image.upload name sv v (some r) du imageExists stream).2 = .ok ()) ∧
      (imageExists = false →
        (Image.upload name sv v (some r) du imageExists stream).2 =
          .error (.imageNotFound
            (pyRstripSlash r ++ "/" ++ name ++ ":" ++ pyFmt (pyOr v sv))))) := by
  refine ⟨?_, ?_⟩
  · rintro reg rfl
    simp [Image.upload]
  · intro r hr
    have hrT : pyTruthy (some r) = true := pyTruthy_some r hr
    refine ⟨?_, ?_, ?_⟩
    · simp only [Image.upload, hrT, pyFmt]
      rw [if_neg (by simp)]
      simp only [if_true]
      exact getLast?_cons_concat _ _ _
    · intro hstr hex
      subst hex
      have hok : check_docker_stream stream name = .ok () := (check_ok_iff stream name).mpr hstr
      simp [Image.upload, hrT, push_image, hok, pyFmt]
    · rintro rfl
      simp [Image.upload, hrT, push_image, pyFmt]

/-- C6, witness: with registry `reg:5000`, the last operation is the
removal of `reg:5000/img:v1` both when the local image is missing (push
raised) and when the push succeeds; the successful path returns ok. -/
theorem C6_image_upload_cleanup_witness :
    (Image.upload "img" (some "dev") (some "v1") (some "reg:5000") none false []).1.getLast? =
      some (.removeImage "reg:5000/img:v1") ∧
    (Image.upload "img" (some "dev") (some "v1") (some "reg:5000") none true []).1.getLast? =
      some (.removeImage "reg:5000/img:v1") ∧
    (Image.upload "img" (some "dev") (some "v1") (some "reg:5000") none true []).2 = .ok () :=
  ⟨(((C6_image_upload_cleanup "img" (some "dev") (some "v1") none false []).2
      "reg:5000" (by decide)).1).trans (by decide),
   (((C6_image_upload_cleanup "img" (some "dev") (some "v1") none true []).2
      "reg:5000" (by decide)).1).trans (by decide),
   ((C6_image_upload_cleanup "img" (some "dev") (some "v1") none true []).2
      "reg:5000" (by decide)).2.1 rfl rfl⟩

/-- C9: pushing a missing local image fails fatally with the docker
not-found error (not a `RetryableFailure`); any `error` entry in the
push status stream makes the push raise `RetryableFailure`; and the
push returns success exactly when the image exists and the whole stream
carries no error entry. -/
theorem C9_push_image (name imagename tg : String) (withAuth : Bool)
    (stream : List (Option DockerLine)) :
    ((push_image name imagename tg withAuth false stream).2 =
        .error (.imageNotFound (imagename ++ ":" ++ tg)) ∧
      (PyErr.imageNotFound (imagename ++ ":" ++ tg)).pyClass ≠ "RetryableFailure") ∧
    (stream.any hasErrEntry = true →
      isRetryableErr (push_image name imagename tg withAuth true stream).2 = true) ∧
    ((push_image name imagename tg withAuth true stream).2 = .ok true ↔
      stream.any hasErrEntry = false) := by
  refine ⟨⟨by simp [push_image], by simp [PyErr.pyClass]⟩, ?_, ?_⟩
  · intro h
    have hr := check_retryable stream name h
    cases hc : check_docker_stream stream name with
    | error e =>
      have h2 : (push_image name imagename tg withAuth true stream).2 = .error e := by
        simp [push_image, hc]
      rw [h2]
      rw [hc] at hr
      simp only [isRetryableErr] at hr ⊢
      exact hr
    | ok u =>
      rw [hc] at hr
      simp [isRetryableErr] at hr
  · cases hc : check_docker_stream stream name with
    | error e =>
      simp only [push_image, Bool.not_true, Bool.false_eq_true, if_false, hc]
      constructor
      · intro hcontra
        cases hcontra
      · intro hf
        have := (check_ok_iff stream name).mpr hf
        rw [hc] at this
        cases this
    | ok u =>
      cases u
      have ha := (check_ok_iff stream name).mp hc
      simp [push_image, hc, ha]

/-- C9, witness: a missing image fails with the not-found error; a
stream with an error entry yields a `RetryableFailure`; an error-free
stream on an existing image returns success. -/
theorem C9_push_image_witness :
    (push_image "img" "reg/img" "v1" false false []).2 =
      .error (.imageNotFound "reg/img:v1") ∧
    isRetryableErr (push_image "img" "reg/img" "v1" false true
      [some { status := none, layerId := none, err := some "boom" }]).2 = true ∧
    (push_image "img" "reg/img" "v1" false true []).2 = .ok true :=
  ⟨(C9_push_image "img" "reg/img" "v1" false []).1.1,
   (C9_push_image "img" "reg/img" "v1" false
      [some { status := none, layerId := none, err := some "boom" }]).2.1 rfl,
   (C9_push_image "img" "reg/img" "v1" false []).2.2.mpr rfl⟩

end Windlass
